import Mathlib

/- Verification of the eSAF techno-economic analysis engine
(`Levelized_Cost_of_eSAF.py`, class `eSAF_TEA_Model`), shallowly embedded over
exact rational arithmetic.

Python dictionaries holding one parameter group each are embedded as records;
a group that has not been set yet (an empty dictionary in the source) is
`none`.  Methods that mutate the model object become functions from the model
state to a pair of an `Except` outcome and the post-call state, so a raising
call (embedded as `Except.error`) also records the state it leaves behind.
Python raises `ZeroDivisionError` on a zero float divisor, so every division
whose divisor can be zero is guarded; `ℚ` literals such as `0.05` are exact. -/

namespace ESAFTEA

/-- The `economic_parameters` dictionary set by `set_economic_parameters`. -/
structure EconomicParameters where
  discount_rate : ℚ
  project_lifetime : ℤ
  capacity_factor : ℚ
  plant_capacity_tpy : ℚ
  crf : ℚ
deriving Repr, DecidableEq

/-- The `dac_cost_data` dictionary set by `set_dac_costs`. -/
structure DacCostData where
  capex_per_tco2 : ℚ
  opex_fixed_percent : ℚ
  electricity_cost : ℚ
  heat_cost : ℚ
  water_cost : ℚ
  electricity_consumption : ℚ
  heat_consumption : ℚ
  water_consumption : ℚ
  co2_capture_rate : ℚ
deriving Repr, DecidableEq

/-- The `electrolysis_cost_data` dictionary set by `set_electrolysis_costs`. -/
structure ElectrolysisCostData where
  capex_co_per_kw : ℚ
  capex_h2_per_kw : ℚ
  opex_fixed_percent : ℚ
  electricity_cost : ℚ
  water_cost : ℚ
  catalyst_cost : ℚ
  energy_input_co : ℚ
  energy_input_h2 : ℚ
  water_consumption : ℚ
  catalyst_consumption : ℚ
  co_h2_ratio : ℚ
  syngas_requirement : ℚ
deriving Repr, DecidableEq

/-- The `ft_synthesis_cost_data` dictionary set by `set_ft_synthesis_costs`. -/
structure FtSynthesisCostData where
  capex_per_tpy : ℚ
  opex_fixed_percent : ℚ
  catalyst_cost : ℚ
  heat_cost : ℚ
  cooling_cost : ℚ
  maintenance_percent : ℚ
  energy_input : ℚ
  catalyst_lifetime : ℚ
  water_consumption : ℚ
  water_cost : ℚ
deriving Repr, DecidableEq

/-- The `distribution_cost_data` dictionary set by `set_distribution_costs`. -/
structure DistributionCostData where
  transport_distance : ℚ
  transport_mode : String
  fuel_density : ℚ
  transport_cost_per_tkm : ℚ
  storage_cost : ℚ
  blending_cost : ℚ
deriving Repr, DecidableEq

/-- One of the three per-stage breakdown dictionaries inside `results`. -/
structure StageBreakdown where
  dac : ℚ
  electrolysis : ℚ
  ft_synthesis : ℚ
  distribution : ℚ
  total : ℚ
deriving Repr, DecidableEq

/-- The `results` dictionary written by `calculate_tea`.  The placeholder
installed by `__init__` (empty breakdown dictionaries, `levelized_cost = 0.0`)
is embedded as the all-zero record. -/
structure Results where
  capex_breakdown : StageBreakdown
  opex_breakdown : StageBreakdown
  total_costs : StageBreakdown
  levelized_cost : ℚ
  annual_production_mj : ℚ
  annual_production_tonnes : ℚ
deriving Repr, DecidableEq

/-- The mutable attribute state of one `eSAF_TEA_Model` instance. -/
structure ModelState where
  economic_parameters : Option EconomicParameters
  dac_cost_data : Option DacCostData
  electrolysis_cost_data : Option ElectrolysisCostData
  ft_synthesis_cost_data : Option FtSynthesisCostData
  distribution_cost_data : Option DistributionCostData
  results : Results
deriving Repr, DecidableEq

/-- Python exceptions raised by the engine. -/
inductive TEAError where
  | valueError (msg : String)
  | zeroDivisionError
  | keyError (key : String)
deriving Repr, DecidableEq

/-- The fixed message of the `ValueError` raised by `calculate_tea` when a
required parameter group is missing. -/
def missingDataMsg : String := "缺少DAC → 电解 → FT路径的TEA计算所需数据"

/-- The key of the `KeyError` pandas raises at line 557: `pd.DataFrame([])`
built from an empty row list has no columns, so `df['dac_cost']` fails. -/
def dacCostKey : String := "dac_cost"

/-- The key of the `KeyError` pandas raises at line 624 on an empty scale
sweep (`df['capex_total']` on a column-less empty DataFrame). -/
def capexTotalKey : String := "capex_total"

/-- The zeroed `results` placeholder installed by `__init__`. -/
def initResults : Results :=
  ⟨⟨0, 0, 0, 0, 0⟩, ⟨0, 0, 0, 0, 0⟩, ⟨0, 0, 0, 0, 0⟩, 0, 0, 0⟩

/-- The state of a freshly constructed `eSAF_TEA_Model` (all parameter
dictionaries empty). -/
def initModel : ModelState := ⟨none, none, none, none, none, initResults⟩

/-- Method `eSAF_TEA_Model._calculate_crf`.  When `discount_rate == 0` Python returns
`1.0 / lifetime`, a `ZeroDivisionError` for `lifetime = 0`; otherwise it
returns `r·(1+r)^n / ((1+r)^n − 1)`, where Python raises `ZeroDivisionError`
when the denominator is zero, and also on `0.0 ** n` for negative `n`
(i.e. when `1 + discount_rate = 0` and `lifetime < 0`). -/
def _calculate_crf (discount_rate : ℚ) (lifetime : ℤ) : Except TEAError ℚ :=
  if discount_rate = 0 then
    if lifetime = 0 then .error .zeroDivisionError
    else .ok (1 / (lifetime : ℚ))
  else if 1 + discount_rate = 0 ∧ lifetime < 0 then .error .zeroDivisionError
  else if (1 + discount_rate) ^ lifetime - 1 = 0 then .error .zeroDivisionError
  else .ok (discount_rate * (1 + discount_rate) ^ lifetime / ((1 + discount_rate) ^ lifetime - 1))

/-- Method `set_economic_parameters`: the dictionary literal evaluates
`_calculate_crf` before the attribute is assigned, so a raising CRF
computation leaves the state unchanged. -/
def set_economic_parameters (st : ModelState) (discount_rate : ℚ) (project_lifetime : ℤ)
    (capacity_factor : ℚ) (plant_capacity_tpy : ℚ) : Except TEAError Unit × ModelState :=
  match _calculate_crf discount_rate project_lifetime with
  | .error e => (.error e, st)
  | .ok c =>
      let params : EconomicParameters :=
        ⟨discount_rate, project_lifetime, capacity_factor, plant_capacity_tpy, c⟩
      (.ok (), { st with economic_parameters := some params })

/-- Method `set_dac_costs` (keyword arguments bundled into one record). -/
def set_dac_costs (st : ModelState) (d : DacCostData) : ModelState :=
  { st with dac_cost_data := some d }

/-- Method `set_electrolysis_costs`. -/
def set_electrolysis_costs (st : ModelState) (d : ElectrolysisCostData) : ModelState :=
  { st with electrolysis_cost_data := some d }

/-- Method `set_ft_synthesis_costs`. -/
def set_ft_synthesis_costs (st : ModelState) (d : FtSynthesisCostData) : ModelState :=
  { st with ft_synthesis_cost_data := some d }

/-- Method `set_distribution_costs`. -/
def set_distribution_costs (st : ModelState) (d : DistributionCostData) : ModelState :=
  { st with distribution_cost_data := some d }

/-- The arithmetic body of `calculate_tea` (source lines 331–493), computed
from the five parameter groups.  Guards reproduce Python's
`ZeroDivisionError`s, in source order: division by `capacity_factor`
(line 352), by `1 + co_h2_ratio` (line 397), by `catalyst_lifetime`
(line 434) and by `total_annual_production_mj` (line 463). -/
def calculate_tea_core (econ : EconomicParameters) (dac_data : DacCostData)
    (elec_data : ElectrolysisCostData) (ft_data : FtSynthesisCostData)
    (dist_data : DistributionCostData) : Except TEAError Results :=
  let annual_production := econ.plant_capacity_tpy
  let capacity_factor := econ.capacity_factor
  let crf := econ.crf
  let energy_density : ℚ := 43.0
  let kg_per_tonne : ℚ := 1000
  let mj_per_kg_fuel := energy_density
  if capacity_factor = 0 then .error .zeroDivisionError else
  let co2_needed_per_fuel := dac_data.co2_capture_rate
  let annual_co2_needed := annual_production * kg_per_tonne * co2_needed_per_fuel / capacity_factor
  let dac_capex_total := annual_co2_needed / kg_per_tonne * dac_data.capex_per_tco2
  let dac_capex_annual := dac_capex_total * crf
  let dac_opex_fixed := dac_capex_total * dac_data.opex_fixed_percent / 100
  let actual_annual_production := annual_production * capacity_factor
  let actual_co2_capture := actual_annual_production * kg_per_tonne * co2_needed_per_fuel
  let dac_electricity_cost :=
    actual_co2_capture * dac_data.electricity_consumption / 3.6 * dac_data.electricity_cost
  let dac_heat_cost := actual_co2_capture * dac_data.heat_consumption / 3.6 * dac_data.heat_cost
  let dac_water_cost := actual_co2_capture * dac_data.water_consumption * dac_data.water_cost
  let dac_total_annual :=
    dac_capex_annual + dac_opex_fixed + dac_electricity_cost + dac_heat_cost + dac_water_cost
  let syngas_needed := actual_annual_production * kg_per_tonne * elec_data.syngas_requirement
  let co_h2_ratio := ElectrolysisCostData.co_h2_ratio elec_data
  if 1 + co_h2_ratio = 0 then .error .zeroDivisionError else
  let co_needed := syngas_needed * ( co_h2_ratio / (1 + co_h2_ratio))
  let h2_needed := syngas_needed * (1 / (1 + co_h2_ratio))
  let co_power_needed := co_needed * elec_data.energy_input_co / 3.6 / 8760 / capacity_factor
  let h2_power_needed := h2_needed * elec_data.energy_input_h2 / 3.6 / 8760 / capacity_factor
  let elec_capex_co := co_power_needed * elec_data.capex_co_per_kw
  let elec_capex_h2 := h2_power_needed * elec_data.capex_h2_per_kw
  let elec_capex_total := elec_capex_co + elec_capex_h2
  let elec_capex_annual := elec_capex_total * crf
  let elec_opex_fixed := elec_capex_total * elec_data.opex_fixed_percent / 100
  let elec_electricity_cost :=
    (co_needed * elec_data.energy_input_co + h2_needed * elec_data.energy_input_h2) / 3.6 *
      elec_data.electricity_cost
  let elec_water_cost := syngas_needed * elec_data.water_consumption * elec_data.water_cost
  let elec_catalyst_cost :=
    actual_annual_production * kg_per_tonne * elec_data.catalyst_consumption *
      elec_data.catalyst_cost
  let elec_total_annual :=
    elec_capex_annual + elec_opex_fixed + elec_electricity_cost + elec_water_cost +
      elec_catalyst_cost
  let ft_capex_total := annual_production * ft_data.capex_per_tpy
  let ft_capex_annual := ft_capex_total * crf
  let ft_opex_fixed := ft_capex_total * ft_data.opex_fixed_percent / 100
  let ft_maintenance := ft_capex_total * ft_data.maintenance_percent / 100
  if ft_data.catalyst_lifetime = 0 then .error .zeroDivisionError else
  let ft_catalyst_annual := ft_capex_total * ft_data.catalyst_cost / ft_data.catalyst_lifetime
  let actual_fuel_production := actual_annual_production * kg_per_tonne
  let ft_heat_cost := actual_fuel_production * ft_data.energy_input / 3.6 * ft_data.heat_cost
  let ft_cooling_cost :=
    actual_fuel_production * ft_data.energy_input / 3.6 / 2 * ft_data.cooling_cost
  let ft_water_cost := actual_fuel_production * ft_data.water_consumption * ft_data.water_cost
  let ft_total_annual :=
    ft_capex_annual + ft_opex_fixed + ft_maintenance + ft_catalyst_annual + ft_heat_cost +
      ft_cooling_cost + ft_water_cost
  let transport_cost :=
    actual_annual_production * dist_data.transport_distance * dist_data.transport_cost_per_tkm
  let storage_cost := actual_annual_production * dist_data.storage_cost
  let blending_cost := actual_annual_production * dist_data.blending_cost
  let dist_total_annual := transport_cost + storage_cost + blending_cost
  let total_annual_cost := dac_total_annual + elec_total_annual + ft_total_annual + dist_total_annual
  let total_annual_production_mj := actual_annual_production * kg_per_tonne * mj_per_kg_fuel
  if total_annual_production_mj = 0 then .error .zeroDivisionError else
  let levelized_cost := total_annual_cost / total_annual_production_mj
  .ok
    { capex_breakdown :=
        ⟨dac_capex_annual, elec_capex_annual, ft_capex_annual, 0,
          dac_capex_annual + elec_capex_annual + ft_capex_annual⟩
      opex_breakdown :=
        ⟨dac_total_annual - dac_capex_annual, elec_total_annual - elec_capex_annual,
          ft_total_annual - ft_capex_annual, dist_total_annual,
          (dac_total_annual - dac_capex_annual) + (elec_total_annual - elec_capex_annual) +
            (ft_total_annual - ft_capex_annual) + dist_total_annual⟩
      total_costs :=
        ⟨dac_total_annual, elec_total_annual, ft_total_annual, dist_total_annual,
          total_annual_cost⟩
      levelized_cost := levelized_cost
      annual_production_mj := total_annual_production_mj
      annual_production_tonnes := actual_annual_production }

/-- The outcome of `calculate_tea` as a function of the parameter groups
alone: the `all([...])` truthiness check on the five dictionaries (line 320)
raises the fixed-message `ValueError` when any group is unset. -/
def calculate_tea_result (st : ModelState) : Except TEAError Results :=
  match st.economic_parameters, st.dac_cost_data, st.electrolysis_cost_data,
      st.ft_synthesis_cost_data, st.distribution_cost_data with
  | some econ, some dac_data, some elec_data, some ft_data, some dist_data =>
      calculate_tea_core econ dac_data elec_data ft_data dist_data
  | _, _, _, _, _ => .error (.valueError missingDataMsg)

/-- Method `calculate_tea` (the `silent` flag only suppresses printing): on success
the computed `Results` are stored on the model and returned; on an exception
the stored results are untouched. -/
def calculate_tea (st : ModelState) : Except TEAError Results × ModelState :=
  match calculate_tea_result st with
  | .error e => (.error e, st)
  | .ok res => (.ok res, { st with results := res })

/-- One row appended inside the loop of `analyze_electricity_price_sensitivity`. -/
structure ElectricityRow where
  electricity_price : ℚ
  levelized_cost : ℚ
  dac_cost : ℚ
  electrolysis_cost : ℚ
  ft_synthesis_cost : ℚ
  total_annual_cost : ℚ
deriving Repr, DecidableEq

/-- A row of the returned electricity-price DataFrame, after the three
contribution columns are added. -/
structure ElectricityDfRow where
  electricity_price : ℚ
  levelized_cost : ℚ
  dac_cost : ℚ
  electrolysis_cost : ℚ
  ft_synthesis_cost : ℚ
  total_annual_cost : ℚ
  dac_contribution : ℚ
  electrolysis_contribution : ℚ
  ft_contribution : ℚ
deriving Repr, DecidableEq

/-- The contribution columns computed on the DataFrame (lines 557–559).
Note: `ℚ` division by zero yields `0` where pandas would yield `inf`;
this matters only when `total_annual_cost = 0`. -/
def addElectricityContributions (r : ElectricityRow) : ElectricityDfRow :=
  ⟨r.electricity_price, r.levelized_cost, r.dac_cost, r.electrolysis_cost,
    r.ft_synthesis_cost, r.total_annual_cost,
    r.dac_cost / r.total_annual_cost * 100,
    r.electrolysis_cost / r.total_annual_cost * 100,
    r.ft_synthesis_cost / r.total_annual_cost * 100⟩

/-- The two in-place assignments at the top of each electricity-sweep
iteration (lines 530–531).  When a dictionary is still unset the assignment is
dropped (in Python it would create a partial dictionary on which
`calculate_tea` then raises; both embeddings raise before such a state can be
observed through a normal return). -/
def setElectricityPrices (st : ModelState) (price : ℚ) : ModelState :=
  { st with
      dac_cost_data := st.dac_cost_data.map (fun d => { d with electricity_cost := price })
      electrolysis_cost_data :=
        st.electrolysis_cost_data.map (fun d => { d with electricity_cost := price }) }

/-- The `for price in electricity_prices` loop of
`analyze_electricity_price_sensitivity` (lines 528–544): overwrite the two
electricity prices, re-run `calculate_tea(silent=True)`, and append a row
built from the freshly stored results.  An exception escapes the loop at
once; there is no `try`/`finally` in the source. -/
def electricitySweepLoop : ModelState → List ℚ → Except TEAError (List ElectricityRow) × ModelState
  | st, [] => (.ok [], st)
  | st, price :: rest =>
    let st1 := setElectricityPrices st price
    match calculate_tea st1 with
    | (.error e, st2) => (.error e, st2)
    | (.ok _, st2) =>
      let row : ElectricityRow :=
        ⟨price, st2.results.levelized_cost, st2.results.total_costs.dac,
          st2.results.total_costs.electrolysis, st2.results.total_costs.ft_synthesis,
          st2.results.total_costs.total⟩
      match electricitySweepLoop st2 rest with
      | (.error e, st3) => (.error e, st3)
      | (.ok rows, st3) => (.ok (row :: rows), st3)

/-- The default `electricity_prices` list used when the caller passes `None`. -/
def defaultElectricityPrices : List ℚ :=
  [0.02, 0.03, 0.04, 0.05, 0.06, 0.08, 0.10, 0.12, 0.15, 0.20]

/-- Method `analyze_electricity_price_sensitivity` (lines 495–563): remember the two
current electricity prices (`dict.get` with default `0.05`), run the sweep
loop, write the remembered prices back, re-run `calculate_tea(silent=True)`,
and return the DataFrame with contribution columns added.  The restoration
and the final re-evaluation are skipped when the loop raises.  When the row
list is empty, `pd.DataFrame([])` (line 554) has no columns, so the first
contribution-column access `df['dac_cost']` (line 557) raises `KeyError`
after the restoration and re-evaluation have already happened. -/
def analyze_electricity_price_sensitivity (st : ModelState) (electricity_prices : List ℚ) :
    Except TEAError (List ElectricityDfRow) × ModelState :=
  let original_dac_elec_cost :=
    match st.dac_cost_data with
    | some d => d.electricity_cost
    | none => 0.05
  let original_elec_cost :=
    match st.electrolysis_cost_data with
    | some d => d.electricity_cost
    | none => 0.05
  match electricitySweepLoop st electricity_prices with
  | (.error e, st') => (.error e, st')
  | (.ok rows, st') =>
    let restored : ModelState :=
      { st' with
          dac_cost_data :=
            st'.dac_cost_data.map (fun d => { d with electricity_cost := original_dac_elec_cost })
          electrolysis_cost_data :=
            st'.electrolysis_cost_data.map
              (fun d => { d with electricity_cost := original_elec_cost }) }
    match calculate_tea restored with
    | (.error e, st'') => (.error e, st'')
    | (.ok _, st'') =>
      match rows with
      | [] => (.error (.keyError dacCostKey), st'')
      | _ :: _ => (.ok (rows.map addElectricityContributions), st'')

/-- One row appended inside the loop of `analyze_scale_sensitivity`. -/
structure ScaleRow where
  plant_capacity : ℚ
  levelized_cost : ℚ
  capex_total : ℚ
  opex_total : ℚ
  dac_cost : ℚ
  electrolysis_cost : ℚ
  ft_synthesis_cost : ℚ
deriving Repr, DecidableEq

/-- A row of the returned scale DataFrame, after the two per-unit columns. -/
structure ScaleDfRow where
  plant_capacity : ℚ
  levelized_cost : ℚ
  capex_total : ℚ
  opex_total : ℚ
  dac_cost : ℚ
  electrolysis_cost : ℚ
  ft_synthesis_cost : ℚ
  capex_per_tpy : ℚ
  opex_per_tonne : ℚ
deriving Repr, DecidableEq

/-- The per-unit columns computed on the scale DataFrame (lines 624–625). -/
def addScaleColumns (r : ScaleRow) : ScaleDfRow :=
  ⟨r.plant_capacity, r.levelized_cost, r.capex_total, r.opex_total, r.dac_cost,
    r.electrolysis_cost, r.ft_synthesis_cost,
    r.capex_total / r.plant_capacity, r.opex_total / r.plant_capacity⟩

/-- The in-place capacity assignment at the top of each scale-sweep iteration
(line 598). -/
def setPlantCapacity (st : ModelState) (capacity : ℚ) : ModelState :=
  { st with economic_parameters :=
      st.economic_parameters.map (fun e => { e with plant_capacity_tpy := capacity }) }

/-- The `for capacity in plant_capacities` loop of `analyze_scale_sensitivity`
(lines 596–612). -/
def scaleSweepLoop : ModelState → List ℚ → Except TEAError (List ScaleRow) × ModelState
  | st, [] => (.ok [], st)
  | st, capacity :: rest =>
    let st1 := setPlantCapacity st capacity
    match calculate_tea st1 with
    | (.error e, st2) => (.error e, st2)
    | (.ok _, st2) =>
      let row : ScaleRow :=
        ⟨capacity, st2.results.levelized_cost, st2.results.capex_breakdown.total,
          st2.results.opex_breakdown.total, st2.results.total_costs.dac,
          st2.results.total_costs.electrolysis, st2.results.total_costs.ft_synthesis⟩
      match scaleSweepLoop st2 rest with
      | (.error e, st3) => (.error e, st3)
      | (.ok rows, st3) => (.ok (row :: rows), st3)

/-- The default `plant_capacities` list used when the caller passes `None`. -/
def defaultPlantCapacities : List ℚ :=
  [10000, 25000, 50000, 100000, 200000, 500000, 1000000]

/-- Method `analyze_scale_sensitivity` (lines 565–629): remember the current
capacity (`dict.get` with default `100000`), run the sweep loop, write it
back, re-run `calculate_tea(silent=True)`, and return the DataFrame.  When
the row list is empty, the per-unit column access `df['capex_total']`
(line 624) on the column-less empty DataFrame raises `KeyError` after the
restoration and re-evaluation have already happened. -/
def analyze_scale_sensitivity (st : ModelState) (plant_capacities : List ℚ) :
    Except TEAError (List ScaleDfRow) × ModelState :=
  let original_capacity :=
    match st.economic_parameters with
    | some e => e.plant_capacity_tpy
    | none => 100000
  match scaleSweepLoop st plant_capacities with
  | (.error e, st') => (.error e, st')
  | (.ok rows, st') =>
    let restored : ModelState :=
      { st' with economic_parameters :=
          st'.economic_parameters.map (fun e => { e with plant_capacity_tpy := original_capacity }) }
    match calculate_tea restored with
    | (.error e, st'') => (.error e, st'')
    | (.ok _, st'') =>
      match rows with
      | [] => (.error (.keyError capexTotalKey), st'')
      | _ :: _ => (.ok (rows.map addScaleColumns), st'')

/-- The dictionary returned by `calculate_breakeven_fuel_price`. -/
structure BreakevenResults where
  esaf_cost_usd_per_liter : ℚ
  conventional_fuel_price : ℚ
  price_premium : ℚ
  price_premium_percent : ℚ
  required_carbon_tax : ℚ
  emission_difference_g_co2e_per_mj : ℚ
deriving Repr, DecidableEq

/-- Method `calculate_breakeven_fuel_price` (lines 631–678): when no levelized cost
is stored yet (`0.0` is falsy) it first runs `calculate_tea()`, then converts
the stored levelized cost with fixed density/energy constants.  The premium
percentage divides by `conventional_fuel_price`, a `ZeroDivisionError` when
that price is zero. -/
def calculate_breakeven_fuel_price (st : ModelState) (conventional_fuel_price : ℚ) :
    Except TEAError BreakevenResults × ModelState :=
  let step :=
    if st.results.levelized_cost = 0 then calculate_tea st
    else (.ok st.results, st)
  match step with
  | (.error e, st') => (.error e, st')
  | (.ok _, st') =>
    let fuel_density : ℚ := 0.8
    let energy_density : ℚ := 43.0
    let esaf_cost_per_liter := st'.results.levelized_cost * energy_density * fuel_density
    let price_premium := esaf_cost_per_liter - conventional_fuel_price
    if conventional_fuel_price = 0 then (.error .zeroDivisionError, st') else
    let price_premium_percent := price_premium / conventional_fuel_price * 100
    let emission_difference : ℚ := 89.0
    let required_carbon_tax := price_premium / (emission_difference / 1000 * energy_density)
    (.ok ⟨esaf_cost_per_liter, conventional_fuel_price, price_premium, price_premium_percent,
      required_carbon_tax, emission_difference⟩, st')

/-- The default keyword arguments of `set_dac_costs`. -/
def defaultDacCostData : DacCostData :=
  ⟨4000, 4.0, 0.05, 0.03, 0.001, 20.0, 5.0, 5.0, 3.1⟩

/-- The default keyword arguments of `set_electrolysis_costs`. -/
def defaultElectrolysisCostData : ElectrolysisCostData :=
  ⟨3000, 1500, 5.0, 0.05, 0.001, 0.02, 28.0, 55.0, 20.0, 0.1, 0.923, 2.13⟩

/-- The default keyword arguments of `set_ft_synthesis_costs`. -/
def defaultFtSynthesisCostData : FtSynthesisCostData :=
  ⟨15000, 6.0, 0.05, 0.03, 0.02, 2.0, 25.0, 2.0, 5.0, 0.001⟩

/-- The default keyword arguments of `set_distribution_costs`. -/
def defaultDistributionCostData : DistributionCostData :=
  ⟨500, "truck", 0.8, 0.15, 50, 20⟩

/-- A model configured exactly as in the `__main__` example, which uses the
documented default value of every parameter. -/
def defaultModel : ModelState :=
  let st := (set_economic_parameters initModel 0.08 20 0.9 100000).2
  let st := set_dac_costs st defaultDacCostData
  let st := set_electrolysis_costs st defaultElectrolysisCostData
  let st := set_ft_synthesis_costs st defaultFtSynthesisCostData
  set_distribution_costs st defaultDistributionCostData

/-! ### Basic lemmas about `calculate_tea` -/

theorem calculate_tea_fst (st : ModelState) : (calculate_tea st).1 = calculate_tea_result st := by
  unfold calculate_tea
  cases h : calculate_tea_result st <;> simp [h]

theorem calculate_tea_error_eq (st : ModelState) (e : TEAError)
    (h : calculate_tea_result st = .error e) : calculate_tea st = (.error e, st) := by
  unfold calculate_tea
  rw [h]

theorem calculate_tea_ok_eq (st : ModelState) (res : Results)
    (h : calculate_tea_result st = .ok res) :
    calculate_tea st = (.ok res, { st with results := res }) := by
  unfold calculate_tea
  rw [h]

theorem calculate_tea_ok_shape (st : ModelState) (res : Results) (st' : ModelState)
    (h : calculate_tea st = (.ok res, st')) :
    calculate_tea_result st = .ok res ∧ st' = { st with results := res } := by
  unfold calculate_tea at h
  cases hr : calculate_tea_result st with
  | error e => rw [hr] at h; simp at h
  | ok r =>
      rw [hr] at h
      simp only [Prod.mk.injEq, Except.ok.injEq] at h
      obtain ⟨h1, h2⟩ := h
      subst h1
      exact ⟨rfl, h2.symm⟩

theorem calculate_tea_error_shape (st : ModelState) (e : TEAError) (st' : ModelState)
    (h : calculate_tea st = (.error e, st')) :
    calculate_tea_result st = .error e ∧ st' = st := by
  unfold calculate_tea at h
  cases hr : calculate_tea_result st <;> rw [hr] at h <;> simp_all

/-- The outcome of an evaluation depends only on the five parameter groups,
not on the stored results. -/
theorem calculate_tea_result_congr (st st' : ModelState)
    (h1 : st.economic_parameters = st'.economic_parameters)
    (h2 : st.dac_cost_data = st'.dac_cost_data)
    (h3 : st.electrolysis_cost_data = st'.electrolysis_cost_data)
    (h4 : st.ft_synthesis_cost_data = st'.ft_synthesis_cost_data)
    (h5 : st.distribution_cost_data = st'.distribution_cost_data) :
    calculate_tea_result st = calculate_tea_result st' := by
  unfold calculate_tea_result
  rw [h1, h2, h3, h4, h5]

/-- A successful evaluation means all five groups are present and the core
computation succeeded on them. -/
theorem calculate_tea_result_ok (st : ModelState) (res : Results)
    (h : calculate_tea_result st = .ok res) :
    ∃ econ dac_data elec_data ft_data dist_data,
      st.economic_parameters = some econ ∧ st.dac_cost_data = some dac_data ∧
      st.electrolysis_cost_data = some elec_data ∧ st.ft_synthesis_cost_data = some ft_data ∧
      st.distribution_cost_data = some dist_data ∧
      calculate_tea_core econ dac_data elec_data ft_data dist_data = .ok res := by
  obtain ⟨eo, dico, elo, fto, dio, r⟩ := st
  cases eo <;> cases dico <;> cases elo <;> cases fto <;> cases dio <;>
    simp_all [calculate_tea_result]

/-- Evaluation via `calculate_tea` never changes any of the five parameter groups. -/
theorem calculate_tea_preserves_params (st : ModelState) :
    (calculate_tea st).2.economic_parameters = st.economic_parameters ∧
    (calculate_tea st).2.dac_cost_data = st.dac_cost_data ∧
    (calculate_tea st).2.electrolysis_cost_data = st.electrolysis_cost_data ∧
    (calculate_tea st).2.ft_synthesis_cost_data = st.ft_synthesis_cost_data ∧
    (calculate_tea st).2.distribution_cost_data = st.distribution_cost_data := by
  unfold calculate_tea
  cases h : calculate_tea_result st <;> simp [h]

/-! ### Record-update collapsing lemmas for the sweep driver -/

theorem dac_set_set (o : Option DacCostData) (p x : ℚ) :
    Option.map (fun d => { d with electricity_cost := x })
        (Option.map (fun d => { d with electricity_cost := p }) o)
      = Option.map (fun d => { d with electricity_cost := x }) o := by
  cases o <;> rfl

theorem elec_set_set (o : Option ElectrolysisCostData) (p x : ℚ) :
    Option.map (fun d => { d with electricity_cost := x })
        (Option.map (fun d => { d with electricity_cost := p }) o)
      = Option.map (fun d => { d with electricity_cost := x }) o := by
  cases o <;> rfl

theorem dac_set_own (o : Option DacCostData) :
    Option.map
        (fun d => { d with
          electricity_cost := match o with | some d0 => d0.electricity_cost | none => 0.05 }) o
      = o := by
  cases o <;> rfl

theorem elec_set_own (o : Option ElectrolysisCostData) :
    Option.map
        (fun d => { d with
          electricity_cost := match o with | some d0 => d0.electricity_cost | none => 0.05 }) o
      = o := by
  cases o <;> rfl

theorem econ_set_set (o : Option EconomicParameters) (p x : ℚ) :
    Option.map (fun d => { d with plant_capacity_tpy := x })
        (Option.map (fun d => { d with plant_capacity_tpy := p }) o)
      = Option.map (fun d => { d with plant_capacity_tpy := x }) o := by
  cases o <;> rfl

/-- Loop invariant of the electricity-price sweep: the economic, FT and
distribution groups are untouched, and the DAC and electrolysis groups are
unchanged except possibly in their `electricity_cost` field. -/
theorem electricitySweepLoop_preserves (prices : List ℚ) :
    ∀ (st : ModelState) (out : Except TEAError (List ElectricityRow)) (st1 : ModelState),
      electricitySweepLoop st prices = (out, st1) →
        st1.economic_parameters = st.economic_parameters ∧
        st1.ft_synthesis_cost_data = st.ft_synthesis_cost_data ∧
        st1.distribution_cost_data = st.distribution_cost_data ∧
        (∀ x, Option.map (fun d => { d with electricity_cost := x }) st1.dac_cost_data
            = Option.map (fun d => { d with electricity_cost := x }) st.dac_cost_data) ∧
        (∀ x, Option.map (fun d => { d with electricity_cost := x }) st1.electrolysis_cost_data
            = Option.map (fun d => { d with electricity_cost := x }) st.electrolysis_cost_data) := by
  induction prices with
  | nil =>
      intro st out st1 h
      simp only [electricitySweepLoop, Prod.mk.injEq] at h
      rw [← h.2]
      exact ⟨rfl, rfl, rfl, fun _ => rfl, fun _ => rfl⟩
  | cons p rest ih =>
      intro st out st1 h
      simp only [electricitySweepLoop] at h
      split at h
      case _ e st2 heq =>
        have hparams := calculate_tea_preserves_params (setElectricityPrices st p)
        rw [heq] at hparams
        obtain ⟨hp1, hp2, hp3, hp4, hp5⟩ := hparams
        simp only [Prod.mk.injEq] at h
        rw [← h.2]
        refine ⟨hp1, hp4, hp5, fun x => ?_, fun x => ?_⟩
        · rw [hp2]; exact dac_set_set st.dac_cost_data p x
        · rw [hp3]; exact elec_set_set st.electrolysis_cost_data p x
      case _ res st2 heq =>
        have hparams := calculate_tea_preserves_params (setElectricityPrices st p)
        rw [heq] at hparams
        obtain ⟨hp1, hp2, hp3, hp4, hp5⟩ := hparams
        have hbase :
            st2.economic_parameters = st.economic_parameters ∧
            st2.ft_synthesis_cost_data = st.ft_synthesis_cost_data ∧
            st2.distribution_cost_data = st.distribution_cost_data ∧
            (∀ x, Option.map (fun d => { d with electricity_cost := x }) st2.dac_cost_data
                = Option.map (fun d => { d with electricity_cost := x }) st.dac_cost_data) ∧
            (∀ x, Option.map (fun d => { d with electricity_cost := x }) st2.electrolysis_cost_data
                = Option.map (fun d => { d with electricity_cost := x }) st.electrolysis_cost_data) := by
          refine ⟨hp1, hp4, hp5, fun x => ?_, fun x => ?_⟩
          · rw [hp2]; exact dac_set_set st.dac_cost_data p x
          · rw [hp3]; exact elec_set_set st.electrolysis_cost_data p x
        split at h
        case _ e st3 hl =>
          have ihr := ih st2 _ _ hl
          simp only [Prod.mk.injEq] at h
          rw [← h.2]
          exact ⟨ihr.1.trans hbase.1, ihr.2.1.trans hbase.2.1, ihr.2.2.1.trans hbase.2.2.1,
            fun x => (ihr.2.2.2.1 x).trans (hbase.2.2.2.1 x),
            fun x => (ihr.2.2.2.2 x).trans (hbase.2.2.2.2 x)⟩
        case _ rows st3 hl =>
          have ihr := ih st2 _ _ hl
          simp only [Prod.mk.injEq] at h
          rw [← h.2]
          exact ⟨ihr.1.trans hbase.1, ihr.2.1.trans hbase.2.1, ihr.2.2.1.trans hbase.2.2.1,
            fun x => (ihr.2.2.2.1 x).trans (hbase.2.2.2.1 x),
            fun x => (ihr.2.2.2.2 x).trans (hbase.2.2.2.2 x)⟩

/-! ### Claim theorems -/

/-- C1: for every non-empty price list, when
`analyze_electricity_price_sensitivity` returns normally the `electricity_cost`
fields of the DAC and electrolysis specs equal their pre-call values exactly,
the stored results are exactly those of a fresh `calculate_tea` run after
restoration, and a subsequent `calculate_tea` with unchanged parameters
reproduces the pre-sweep outcome exactly. -/
theorem electricity_sweep_side_effect_free (st : ModelState) (prices : List ℚ)
    (hne : prices ≠ []) (rows : List ElectricityDfRow) (st' : ModelState)
    (h : analyze_electricity_price_sensitivity st prices = (.ok rows, st')) :
    Option.map DacCostData.electricity_cost st'.dac_cost_data
      = Option.map DacCostData.electricity_cost st.dac_cost_data ∧
    Option.map ElectrolysisCostData.electricity_cost st'.electrolysis_cost_data
      = Option.map ElectrolysisCostData.electricity_cost st.electrolysis_cost_data ∧
    calculate_tea st' = (.ok st'.results, st') ∧
    (calculate_tea st').1 = (calculate_tea st).1 := by
  simp only [analyze_electricity_price_sensitivity] at h
  split at h
  next e st1 hl => simp at h
  next rows0 st1 hl =>
    split at h
    next e st2 hc => simp at h
    next res st2 hc =>
      split at h
      next hnil => simp at h
      next r0 rest0 hcons =>
      simp only [Prod.mk.injEq, Except.ok.injEq] at h
      obtain ⟨hrows, hst⟩ := h
      subst hst
      obtain ⟨hecon, hft, hdist, hdac, helec⟩ := electricitySweepLoop_preserves prices st _ _ hl
      obtain ⟨hres, hst2⟩ := calculate_tea_ok_shape _ _ _ hc
      subst hst2
      have hdac' :
          Option.map
              (fun d => { d with
                electricity_cost :=
                  match st.dac_cost_data with
                  | some d0 => d0.electricity_cost
                  | none => 0.05 }) st1.dac_cost_data = st.dac_cost_data := by
        rw [hdac, dac_set_own]
      have helec' :
          Option.map
              (fun d => { d with
                electricity_cost :=
                  match st.electrolysis_cost_data with
                  | some d0 => d0.electricity_cost
                  | none => 0.05 }) st1.electrolysis_cost_data = st.electrolysis_cost_data := by
        rw [helec, elec_set_own]
      refine ⟨?_, ?_, ?_, ?_⟩
      · show Option.map DacCostData.electricity_cost
            (Option.map (fun d => { d with
              electricity_cost :=
                match st.dac_cost_data with
                | some d0 => d0.electricity_cost
                | none => 0.05 }) st1.dac_cost_data) = _
        rw [hdac']
      · show Option.map ElectrolysisCostData.electricity_cost
            (Option.map (fun d => { d with
              electricity_cost :=
                match st.electrolysis_cost_data with
                | some d0 => d0.electricity_cost
                | none => 0.05 }) st1.electrolysis_cost_data) = _
        rw [helec']
      · exact calculate_tea_ok_eq _ res
          ((calculate_tea_result_congr _ _ rfl rfl rfl rfl rfl).trans hres)
      · rw [calculate_tea_fst, calculate_tea_fst]
        exact calculate_tea_result_congr _ st hecon hdac' helec' hft hdist

/-- A fully configured model with degenerate (mostly zero) cost parameters:
every annual cost vanishes while production stays positive, keeping concrete
evaluations small. -/
def witnessModel : ModelState :=
  let st := (set_economic_parameters initModel 0 20 1 1).2
  let st := set_dac_costs st ⟨0, 0, 0, 0, 0, 0, 0, 0, 0⟩
  let st := set_electrolysis_costs st ⟨0, 0, 0, 0, 0, 0, 0, 0, 0, 0, 1, 0⟩
  let st := set_ft_synthesis_costs st ⟨0, 0, 0, 0, 0, 0, 0, 1, 0, 0⟩
  set_distribution_costs st ⟨0, "truck", 0, 0, 0, 0⟩

/-- The results `calculate_tea` computes on `witnessModel`. -/
def witnessResults : Results :=
  ⟨⟨0, 0, 0, 0, 0⟩, ⟨0, 0, 0, 0, 0⟩, ⟨0, 0, 0, 0, 0⟩, 0, 43000, 1⟩

/-- The state `witnessModel` with the capacity factor overwritten to zero, so that any
evaluation raises `ZeroDivisionError`. -/
def zeroCfModel : ModelState := (set_economic_parameters witnessModel 0 20 0 1).2

theorem electricity_sweep_side_effect_free_witness :
    (([(0 : ℚ)] : List ℚ) ≠ []) ∧
    analyze_electricity_price_sensitivity witnessModel [0]
      = (.ok [⟨0, 0, 0, 0, 0, 0, 0, 0, 0⟩], { witnessModel with results := witnessResults }) ∧
    (Option.map DacCostData.electricity_cost
        ({ witnessModel with results := witnessResults } : ModelState).dac_cost_data
      = Option.map DacCostData.electricity_cost witnessModel.dac_cost_data ∧
    Option.map ElectrolysisCostData.electricity_cost
        ({ witnessModel with results := witnessResults } : ModelState).electrolysis_cost_data
      = Option.map ElectrolysisCostData.electricity_cost witnessModel.electrolysis_cost_data ∧
    calculate_tea { witnessModel with results := witnessResults }
      = (.ok ({ witnessModel with results := witnessResults } : ModelState).results,
          { witnessModel with results := witnessResults }) ∧
    (calculate_tea { witnessModel with results := witnessResults }).1
      = (calculate_tea witnessModel).1) := by
  have hne : ([(0 : ℚ)] : List ℚ) ≠ [] := by simp
  have h : analyze_electricity_price_sensitivity witnessModel [0]
      = (.ok [⟨0, 0, 0, 0, 0, 0, 0, 0, 0⟩], { witnessModel with results := witnessResults }) := by
    norm_num [analyze_electricity_price_sensitivity, electricitySweepLoop, setElectricityPrices,
      calculate_tea, calculate_tea_result, calculate_tea_core, addElectricityContributions,
      witnessModel, witnessResults, initModel, initResults, set_economic_parameters,
      _calculate_crf, set_dac_costs, set_electrolysis_costs, set_ft_synthesis_costs,
      set_distribution_costs]
  exact ⟨hne, h, electricity_sweep_side_effect_free witnessModel [0] hne _ _ h⟩

/-- C2 counterexample: with a zero capacity factor every evaluation raises,
and after the raising sweep the DAC electricity price is left at the swept
value `0.10`, not restored to its pre-sweep value `0`. -/
theorem sweep_error_leaves_mutation :
    (analyze_electricity_price_sensitivity zeroCfModel [0.10]).1
      = .error .zeroDivisionError ∧
    Option.map DacCostData.electricity_cost
        (analyze_electricity_price_sensitivity zeroCfModel [0.10]).2.dac_cost_data
      = some 0.10 ∧
    Option.map DacCostData.electricity_cost zeroCfModel.dac_cost_data = some 0 := by
  refine ⟨?_, ?_, ?_⟩ <;>
    norm_num [analyze_electricity_price_sensitivity, electricitySweepLoop, setElectricityPrices,
      calculate_tea, calculate_tea_result, calculate_tea_core, zeroCfModel, witnessModel,
      initModel, initResults, set_economic_parameters, _calculate_crf, set_dac_costs,
      set_electrolysis_costs, set_ft_synthesis_costs, set_distribution_costs]

/-- C2 amended: when `calculate_tea` raises during any iteration of a sweep
(first or later), the exception propagates to the caller at once, the swept
fields keep the perturbed value `p` of the failed iteration (the evaluation
at `p` is the one that fails), and no restoration happens — the source has
no `try`/`finally` on the error path. -/
theorem sweep_error_no_restoration :
    (∀ (st : ModelState) (prices : List ℚ) (e : TEAError) (st1 : ModelState),
        electricitySweepLoop st prices = (.error e, st1) →
        analyze_electricity_price_sensitivity st prices = (.error e, st1) ∧
        ∃ p ∈ prices,
          calculate_tea_result (setElectricityPrices st p) = .error e ∧
          st1.dac_cost_data = (setElectricityPrices st p).dac_cost_data ∧
          st1.electrolysis_cost_data = (setElectricityPrices st p).electrolysis_cost_data) ∧
    (∀ (st : ModelState) (capacities : List ℚ) (e : TEAError) (st1 : ModelState),
        scaleSweepLoop st capacities = (.error e, st1) →
        analyze_scale_sensitivity st capacities = (.error e, st1) ∧
        ∃ c ∈ capacities,
          calculate_tea_result (setPlantCapacity st c) = .error e ∧
          st1.economic_parameters = (setPlantCapacity st c).economic_parameters) := by
  constructor
  · intro st prices e st1 h
    refine ⟨?_, ?_⟩
    · unfold analyze_electricity_price_sensitivity
      dsimp only
      rw [h]
    · induction prices generalizing st with
      | nil => simp [electricitySweepLoop] at h
      | cons p rest ih =>
          simp only [electricitySweepLoop] at h
          split at h
          next e0 st2 heq =>
            simp only [Prod.mk.injEq, Except.error.injEq] at h
            obtain ⟨he, hst⟩ := h
            obtain ⟨hres, hst2⟩ := calculate_tea_error_shape _ _ _ heq
            subst he hst hst2
            exact ⟨p, by simp, hres, rfl, rfl⟩
          next res st2 heq =>
            split at h
            next e0 st3 hl =>
              simp only [Prod.mk.injEq, Except.error.injEq] at h
              obtain ⟨he, hst⟩ := h
              subst he hst
              obtain ⟨hok, hst2⟩ := calculate_tea_ok_shape _ _ _ heq
              subst hst2
              obtain ⟨q, hq_mem, hq_res, hq_dac, hq_elec⟩ := ih _ hl
              refine ⟨q, by simp [hq_mem], ?_, ?_, ?_⟩
              · rw [← hq_res]
                exact calculate_tea_result_congr _ _ rfl
                  (dac_set_set st.dac_cost_data p q).symm
                  (elec_set_set st.electrolysis_cost_data p q).symm rfl rfl
              · exact hq_dac.trans (dac_set_set st.dac_cost_data p q)
              · exact hq_elec.trans (elec_set_set st.electrolysis_cost_data p q)
            next rows st3 hl =>
              simp at h
  · intro st capacities e st1 h
    refine ⟨?_, ?_⟩
    · unfold analyze_scale_sensitivity
      dsimp only
      rw [h]
    · induction capacities generalizing st with
      | nil => simp [scaleSweepLoop] at h
      | cons c rest ih =>
          simp only [scaleSweepLoop] at h
          split at h
          next e0 st2 heq =>
            simp only [Prod.mk.injEq, Except.error.injEq] at h
            obtain ⟨he, hst⟩ := h
            obtain ⟨hres, hst2⟩ := calculate_tea_error_shape _ _ _ heq
            subst he hst hst2
            exact ⟨c, by simp, hres, rfl⟩
          next res st2 heq =>
            split at h
            next e0 st3 hl =>
              simp only [Prod.mk.injEq, Except.error.injEq] at h
              obtain ⟨he, hst⟩ := h
              subst he hst
              obtain ⟨hok, hst2⟩ := calculate_tea_ok_shape _ _ _ heq
              subst hst2
              obtain ⟨q, hq_mem, hq_res, hq_econ⟩ := ih _ hl
              refine ⟨q, by simp [hq_mem], ?_, ?_⟩
              · rw [← hq_res]
                exact calculate_tea_result_congr _ _
                  (econ_set_set st.economic_parameters c q).symm rfl rfl rfl rfl
              · exact hq_econ.trans (econ_set_set st.economic_parameters c q)
            next rows st3 hl =>
              simp at h

/-- The state the model is left in when the scale sweep of `witnessModel`
over `[5, 0]` raises at its second iteration. -/
def scaleErrorState : ModelState :=
  setPlantCapacity
    { setPlantCapacity witnessModel 5 with
      results := ⟨⟨0, 0, 0, 0, 0⟩, ⟨0, 0, 0, 0, 0⟩, ⟨0, 0, 0, 0, 0⟩, 0, 215000, 5⟩ } 0

theorem sweep_error_no_restoration_witness :
    (electricitySweepLoop zeroCfModel [0.1, 0.2]
        = (.error .zeroDivisionError, setElectricityPrices zeroCfModel 0.1) ∧
      analyze_electricity_price_sensitivity zeroCfModel [0.1, 0.2]
        = (.error .zeroDivisionError, setElectricityPrices zeroCfModel 0.1)) ∧
    (scaleSweepLoop witnessModel [5, 0] = (.error .zeroDivisionError, scaleErrorState) ∧
      analyze_scale_sensitivity witnessModel [5, 0]
        = (.error .zeroDivisionError, scaleErrorState)) := by
  have h1 : electricitySweepLoop zeroCfModel [0.1, 0.2]
      = (.error .zeroDivisionError, setElectricityPrices zeroCfModel 0.1) := by
    norm_num [electricitySweepLoop, setElectricityPrices, calculate_tea, calculate_tea_result,
      calculate_tea_core, zeroCfModel, witnessModel, initModel, initResults,
      set_economic_parameters, _calculate_crf, set_dac_costs, set_electrolysis_costs,
      set_ft_synthesis_costs, set_distribution_costs]
  have h2 : scaleSweepLoop witnessModel [5, 0]
      = (.error .zeroDivisionError, scaleErrorState) := by
    norm_num [scaleSweepLoop, setPlantCapacity, calculate_tea, calculate_tea_result,
      calculate_tea_core, scaleErrorState, witnessModel, initModel, initResults,
      set_economic_parameters, _calculate_crf, set_dac_costs, set_electrolysis_costs,
      set_ft_synthesis_costs, set_distribution_costs]
  exact ⟨⟨h1, (sweep_error_no_restoration.1 zeroCfModel [0.1, 0.2] _ _ h1).1⟩,
    ⟨h2, (sweep_error_no_restoration.2 witnessModel [5, 0] _ _ h2).1⟩⟩

/-- C7 counterexample: an empty sweep does not return an empty result table
— it raises `KeyError('dac_cost')` from the column-less empty DataFrame —
and before raising it has already re-run `calculate_tea`, overwriting the
stored results of a freshly configured model. -/
theorem empty_sweep_overwrites_results :
    (analyze_electricity_price_sensitivity witnessModel []).1
      = .error (.keyError dacCostKey) ∧
    (analyze_electricity_price_sensitivity witnessModel []).2.results
      ≠ witnessModel.results := by
  constructor <;>
    norm_num [analyze_electricity_price_sensitivity, electricitySweepLoop, calculate_tea,
      calculate_tea_result, calculate_tea_core, witnessModel, initModel, initResults,
      set_economic_parameters, _calculate_crf, set_dac_costs, set_electrolysis_costs,
      set_ft_synthesis_costs, set_distribution_costs]

/-- C7 amended: an empty `values` sequence leaves every parameter group
unchanged but does not return an empty result table: the call still re-runs
`calculate_tea`, replacing the stored results with a fresh evaluation of the
current parameters, and then raises `KeyError('dac_cost')` when adding the
contribution columns to the column-less empty DataFrame (line 557). -/
theorem empty_sweep_reevaluates (st : ModelState) (res : Results) (st2 : ModelState)
    (h : calculate_tea st = (.ok res, st2)) :
    analyze_electricity_price_sensitivity st []
      = (.error (.keyError dacCostKey), { st with results := res }) := by
  have hloop : electricitySweepLoop st [] = (.ok [], st) := rfl
  have hrestored :
      ({ st with
          dac_cost_data :=
            Option.map
              (fun d => { d with
                electricity_cost :=
                  match st.dac_cost_data with
                  | some d0 => d0.electricity_cost
                  | none => 0.05 }) st.dac_cost_data
          electrolysis_cost_data :=
            Option.map
              (fun d => { d with
                electricity_cost :=
                  match st.electrolysis_cost_data with
                  | some d0 => d0.electricity_cost
                  | none => 0.05 }) st.electrolysis_cost_data } : ModelState) = st := by
    rw [dac_set_own, elec_set_own]
  unfold analyze_electricity_price_sensitivity
  rw [hloop]
  dsimp only
  rw [hrestored, h, (calculate_tea_ok_shape st res st2 h).2]

theorem empty_sweep_reevaluates_witness :
    calculate_tea witnessModel
      = (.ok witnessResults, { witnessModel with results := witnessResults }) ∧
    analyze_electricity_price_sensitivity witnessModel []
      = (.error (.keyError dacCostKey), { witnessModel with results := witnessResults }) := by
  have h : calculate_tea witnessModel
      = (.ok witnessResults, { witnessModel with results := witnessResults }) := by
    norm_num [calculate_tea, calculate_tea_result, calculate_tea_core, witnessModel,
      witnessResults, initModel, initResults, set_economic_parameters, _calculate_crf,
      set_dac_costs, set_electrolysis_costs, set_ft_synthesis_costs, set_distribution_costs]
  exact ⟨h, empty_sweep_reevaluates witnessModel witnessResults _ h⟩

/-! ### Capital recovery factor -/

theorem crf_zero_lifetime (r : ℚ) : _calculate_crf r 0 = .error .zeroDivisionError := by
  by_cases h : r = 0 <;> simp [_calculate_crf, h]

theorem crf_zero_rate (n : ℤ) (hn : n ≠ 0) : _calculate_crf 0 n = .ok (1 / (n : ℚ)) := by
  simp [_calculate_crf, hn]

theorem crf_pos_rate (r : ℚ) (n : ℤ) (hr : 0 < r) (hn : 1 ≤ n) :
    _calculate_crf r n = .ok (r * (1 + r) ^ n / ((1 + r) ^ n - 1)) := by
  have hgt : (1 : ℚ) < (1 + r) ^ n := one_lt_zpow₀ (by linarith) (by omega)
  unfold _calculate_crf
  rw [if_neg hr.ne', if_neg (by rintro ⟨-, hc⟩; omega),
    if_neg (by intro hc; nlinarith [hgt])]

/-- C4: for discount rates `r ≥ 0` and lifetimes `n ≥ 1`, `_calculate_crf`
returns `1/n` when `r = 0` and the annuity formula otherwise; in particular
`_calculate_crf 0 20 = 0.05` exactly and `_calculate_crf 0.08 20` is within
`1e-4` of `0.10185`. -/
theorem crf_closed_form (r : ℚ) (n : ℤ) (hr : 0 ≤ r) (hn : 1 ≤ n) :
    (r = 0 → _calculate_crf r n = .ok (1 / (n : ℚ))) ∧
    (r ≠ 0 → _calculate_crf r n = .ok (r * (1 + r) ^ n / ((1 + r) ^ n - 1))) ∧
    _calculate_crf 0 20 = .ok 0.05 ∧
    (∀ q : ℚ, _calculate_crf 0.08 20 = .ok q → |q - 0.10185| < 1e-4) := by
  refine ⟨?_, ?_, ?_, ?_⟩
  · intro h0
    subst h0
    exact crf_zero_rate n (by omega)
  · intro hne
    exact crf_pos_rate r n (lt_of_le_of_ne hr (Ne.symm hne)) hn
  · rw [crf_zero_rate 20 (by omega)]
    norm_num
  · intro q hq
    rw [crf_pos_rate 0.08 20 (by norm_num) (by omega)] at hq
    simp only [Except.ok.injEq] at hq
    subst hq
    rw [show ((20 : ℤ) : ℤ) = ((20 : ℕ) : ℤ) from rfl, zpow_natCast]
    rw [abs_sub_lt_iff]
    norm_num

theorem crf_closed_form_witness :
    ((0 : ℚ) ≤ 0.08) ∧ ((1 : ℤ) ≤ 20) ∧
    _calculate_crf 0.08 20 = .ok (0.08 * (1 + 0.08) ^ (20 : ℤ) / ((1 + 0.08) ^ (20 : ℤ) - 1)) :=
  ⟨by norm_num, by norm_num,
    (crf_closed_form 0.08 20 (by norm_num) (by norm_num)).2.1 (by norm_num)⟩

/-- C8 counterexample: a negative lifetime does not make the CRF computation
fail — `_calculate_crf(0.08, -5)` returns the numeric value `-390625/2291641`
(and `set_economic_parameters` consequently succeeds), contradicting the
claim that every `lifetime < 1` fails with a configuration error. -/
theorem negative_lifetime_crf_returns_value :
    _calculate_crf 0.08 (-5) = .ok (-(390625 / 2291641)) ∧
    (set_economic_parameters initModel 0.08 (-5) 0.9 100000).1 = .ok () := by
  have h : _calculate_crf 0.08 (-5) = .ok (-(390625 / 2291641)) := by
    unfold _calculate_crf
    norm_num
  refine ⟨h, ?_⟩
  unfold set_economic_parameters
  rw [h]

/-- C8 amended: `lifetime = 0` makes the CRF computation (hence
`set_economic_parameters`) raise `ZeroDivisionError` — not a configuration
error — while a negative lifetime raises nothing and returns a numeric
value; for `lifetime ≥ 1` and `discount_rate ≥ 0` there are no error
paths. -/
theorem crf_lifetime_error_paths :
    (∀ r : ℚ, _calculate_crf r 0 = .error .zeroDivisionError) ∧
    (∀ e : TEAError, _calculate_crf 0.08 (-5) ≠ .error e) ∧
    (∀ (r : ℚ) (n : ℤ), 0 ≤ r → 1 ≤ n → ∀ e : TEAError, _calculate_crf r n ≠ .error e) ∧
    (∀ (st : ModelState) (r cf cap : ℚ),
        set_economic_parameters st r 0 cf cap = (.error .zeroDivisionError, st)) := by
  refine ⟨crf_zero_lifetime, ?_, ?_, ?_⟩
  · intro e
    rw [show _calculate_crf 0.08 (-5) = .ok (-(390625 / 2291641)) from by
      unfold _calculate_crf; norm_num]
    simp
  · intro r n h0 h1 e
    rcases h0.eq_or_lt with h | h
    · rw [← h, crf_zero_rate n (by omega)]
      simp
    · rw [crf_pos_rate r n h h1]
      simp
  · intro st r cf cap
    unfold set_economic_parameters
    rw [crf_zero_lifetime r]

theorem crf_lifetime_error_paths_witness :
    _calculate_crf 1 0 = .error .zeroDivisionError ∧
    _calculate_crf 0.08 (-5) ≠ .error .zeroDivisionError ∧
    ((0 : ℚ) ≤ 0.08 ∧ (1 : ℤ) ≤ 20 ∧
      _calculate_crf 0.08 20 ≠ .error .zeroDivisionError ∧
      _calculate_crf 0.08 20 ≠ .error (.valueError missingDataMsg)) ∧
    set_economic_parameters initModel 1 0 0.9 100000
      = (.error .zeroDivisionError, initModel) :=
  ⟨crf_lifetime_error_paths.1 1, crf_lifetime_error_paths.2.1 .zeroDivisionError,
    ⟨by norm_num, by norm_num,
      crf_lifetime_error_paths.2.2.1 0.08 20 (by norm_num) (by norm_num) .zeroDivisionError,
      crf_lifetime_error_paths.2.2.1 0.08 20 (by norm_num) (by norm_num)
        (.valueError missingDataMsg)⟩,
    crf_lifetime_error_paths.2.2.2 initModel 1 0.9 100000⟩

/-! ### Aggregator closure (C3) -/

theorem calculate_tea_core_closure (econ : EconomicParameters) (dac_data : DacCostData)
    (elec_data : ElectrolysisCostData) (ft_data : FtSynthesisCostData)
    (dist_data : DistributionCostData) (res : Results)
    (h : calculate_tea_core econ dac_data elec_data ft_data dist_data = .ok res) :
    res.total_costs.dac = res.capex_breakdown.dac + res.opex_breakdown.dac ∧
    res.total_costs.electrolysis
      = res.capex_breakdown.electrolysis + res.opex_breakdown.electrolysis ∧
    res.total_costs.ft_synthesis
      = res.capex_breakdown.ft_synthesis + res.opex_breakdown.ft_synthesis ∧
    res.total_costs.distribution
      = res.capex_breakdown.distribution + res.opex_breakdown.distribution ∧
    res.total_costs.total = res.total_costs.dac + res.total_costs.electrolysis +
      res.total_costs.ft_synthesis + res.total_costs.distribution ∧
    |res.capex_breakdown.total + res.opex_breakdown.total - res.total_costs.total|
      ≤ 1e-9 * |res.total_costs.total| ∧
    res.levelized_cost = res.total_costs.total / res.annual_production_mj := by
  have habs : ∀ a b c : ℚ, a + b = c → |a + b - c| ≤ 1e-9 * |c| := by
    intro a b c hh
    rw [hh, sub_self, abs_zero]
    positivity
  unfold calculate_tea_core at h
  dsimp only at h
  split_ifs at h
  simp only [Except.ok.injEq] at h
  subst h
  dsimp only
  refine ⟨by ring, by ring, by ring, by ring, by ring, habs _ _ _ (by ring), rfl⟩

/-- C3: every successful `calculate_tea` yields results in which each stage's
total cost is its CAPEX plus OPEX, the grand total is the exact sum of the
four per-stage totals, total CAPEX plus total OPEX matches the grand total
within `1e-9` relative tolerance, and the levelized cost is the grand total
divided by the annual energy output. -/
theorem calculate_tea_breakdown_closure (st : ModelState) (res : Results) (st' : ModelState)
    (h : calculate_tea st = (.ok res, st')) :
    res.total_costs.dac = res.capex_breakdown.dac + res.opex_breakdown.dac ∧
    res.total_costs.electrolysis
      = res.capex_breakdown.electrolysis + res.opex_breakdown.electrolysis ∧
    res.total_costs.ft_synthesis
      = res.capex_breakdown.ft_synthesis + res.opex_breakdown.ft_synthesis ∧
    res.total_costs.distribution
      = res.capex_breakdown.distribution + res.opex_breakdown.distribution ∧
    res.total_costs.total = res.total_costs.dac + res.total_costs.electrolysis +
      res.total_costs.ft_synthesis + res.total_costs.distribution ∧
    |res.capex_breakdown.total + res.opex_breakdown.total - res.total_costs.total|
      ≤ 1e-9 * |res.total_costs.total| ∧
    res.levelized_cost = res.total_costs.total / res.annual_production_mj := by
  obtain ⟨hres, -⟩ := calculate_tea_ok_shape st res st' h
  obtain ⟨econ, dd, ed, fd, did, -, -, -, -, -, hcore⟩ := calculate_tea_result_ok st res hres
  exact calculate_tea_core_closure econ dd ed fd did res hcore

theorem calculate_tea_breakdown_closure_witness :
    calculate_tea witnessModel
      = (.ok witnessResults, { witnessModel with results := witnessResults }) ∧
    (witnessResults.total_costs.dac
        = witnessResults.capex_breakdown.dac + witnessResults.opex_breakdown.dac ∧
      witnessResults.total_costs.electrolysis
        = witnessResults.capex_breakdown.electrolysis + witnessResults.opex_breakdown.electrolysis ∧
      witnessResults.total_costs.ft_synthesis
        = witnessResults.capex_breakdown.ft_synthesis + witnessResults.opex_breakdown.ft_synthesis ∧
      witnessResults.total_costs.distribution
        = witnessResults.capex_breakdown.distribution + witnessResults.opex_breakdown.distribution ∧
      witnessResults.total_costs.total
        = witnessResults.total_costs.dac + witnessResults.total_costs.electrolysis +
          witnessResults.total_costs.ft_synthesis + witnessResults.total_costs.distribution ∧
      |witnessResults.capex_breakdown.total + witnessResults.opex_breakdown.total
          - witnessResults.total_costs.total|
        ≤ 1e-9 * |witnessResults.total_costs.total| ∧
      witnessResults.levelized_cost
        = witnessResults.total_costs.total / witnessResults.annual_production_mj) := by
  have h : calculate_tea witnessModel
      = (.ok witnessResults, { witnessModel with results := witnessResults }) := by
    norm_num [calculate_tea, calculate_tea_result, calculate_tea_core, witnessModel,
      witnessResults, initModel, initResults, set_economic_parameters, _calculate_crf,
      set_dac_costs, set_electrolysis_costs, set_ft_synthesis_costs, set_distribution_costs]
  exact ⟨h, calculate_tea_breakdown_closure witnessModel witnessResults _ h⟩

/-! ### Missing parameter groups (C5) -/

/-- A model with everything set except the economic parameters. -/
def missingEconModel : ModelState :=
  let st := set_dac_costs initModel defaultDacCostData
  let st := set_electrolysis_costs st defaultElectrolysisCostData
  let st := set_ft_synthesis_costs st defaultFtSynthesisCostData
  set_distribution_costs st defaultDistributionCostData

/-- A model with everything set except the DAC cost data. -/
def missingDacModel : ModelState :=
  let st := (set_economic_parameters initModel 0.08 20 0.9 100000).2
  let st := set_electrolysis_costs st defaultElectrolysisCostData
  let st := set_ft_synthesis_costs st defaultFtSynthesisCostData
  set_distribution_costs st defaultDistributionCostData

theorem calculate_tea_core_no_value_error (econ : EconomicParameters) (dac_data : DacCostData)
    (elec_data : ElectrolysisCostData) (ft_data : FtSynthesisCostData)
    (dist_data : DistributionCostData) (msg : String) :
    calculate_tea_core econ dac_data elec_data ft_data dist_data
      ≠ .error (.valueError msg) := by
  unfold calculate_tea_core
  dsimp only
  split_ifs <;> simp

/-- C5 counterexample: the `ValueError` raised for a missing parameter group
carries one fixed message regardless of which groups are missing — a run
missing only the economic parameters and a run missing only the DAC spec
raise identical exceptions, so the error does not list the missing groups. -/
theorem missing_group_error_fixed_message :
    calculate_tea missingEconModel
      = (.error (.valueError missingDataMsg), missingEconModel) ∧
    calculate_tea missingDacModel
      = (.error (.valueError missingDataMsg), missingDacModel) ∧
    missingEconModel.economic_parameters = none ∧
    Option.isSome missingEconModel.dac_cost_data = true ∧
    missingDacModel.dac_cost_data = none ∧
    Option.isSome missingDacModel.economic_parameters = true := by
  refine ⟨?_, ?_, ?_, ?_, ?_, ?_⟩ <;>
    norm_num [calculate_tea, calculate_tea_result, missingEconModel, missingDacModel,
      initModel, initResults, set_economic_parameters, _calculate_crf, set_dac_costs,
      set_electrolysis_costs, set_ft_synthesis_costs, set_distribution_costs]

/-- C5 amended: `calculate_tea` raises a `ValueError` with one fixed message
(not listing which groups are missing) whenever at least one of the five
required parameter groups is unset, propagating it to the caller with the
state unchanged; when all five are set no such error is raised. -/
theorem calculate_tea_missing_group_error (st st2 : ModelState)
    (hmiss : st.economic_parameters = none ∨ st.dac_cost_data = none ∨
      st.electrolysis_cost_data = none ∨ st.ft_synthesis_cost_data = none ∨
      st.distribution_cost_data = none)
    (hall : Option.isSome st2.economic_parameters = true ∧
      Option.isSome st2.dac_cost_data = true ∧
      Option.isSome st2.electrolysis_cost_data = true ∧
      Option.isSome st2.ft_synthesis_cost_data = true ∧
      Option.isSome st2.distribution_cost_data = true) :
    calculate_tea st = (.error (.valueError missingDataMsg), st) ∧
    ∀ msg : String, (calculate_tea st2).1 ≠ .error (.valueError msg) := by
  constructor
  · have hres : calculate_tea_result st = .error (.valueError missingDataMsg) := by
      obtain ⟨eo, dico, elo, fto, dio, r⟩ := st
      cases eo <;> cases dico <;> cases elo <;> cases fto <;> cases dio <;>
        simp_all [calculate_tea_result]
    exact calculate_tea_error_eq st _ hres
  · intro msg
    rw [calculate_tea_fst]
    obtain ⟨h1, h2, h3, h4, h5⟩ := hall
    obtain ⟨e1, he1⟩ := Option.isSome_iff_exists.mp h1
    obtain ⟨e2, he2⟩ := Option.isSome_iff_exists.mp h2
    obtain ⟨e3, he3⟩ := Option.isSome_iff_exists.mp h3
    obtain ⟨e4, he4⟩ := Option.isSome_iff_exists.mp h4
    obtain ⟨e5, he5⟩ := Option.isSome_iff_exists.mp h5
    unfold calculate_tea_result
    rw [he1, he2, he3, he4, he5]
    exact calculate_tea_core_no_value_error e1 e2 e3 e4 e5 msg

theorem calculate_tea_missing_group_error_witness :
    (missingEconModel.economic_parameters = none ∨ missingEconModel.dac_cost_data = none ∨
      missingEconModel.electrolysis_cost_data = none ∨
      missingEconModel.ft_synthesis_cost_data = none ∨
      missingEconModel.distribution_cost_data = none) ∧
    (Option.isSome witnessModel.economic_parameters = true ∧
      Option.isSome witnessModel.dac_cost_data = true ∧
      Option.isSome witnessModel.electrolysis_cost_data = true ∧
      Option.isSome witnessModel.ft_synthesis_cost_data = true ∧
      Option.isSome witnessModel.distribution_cost_data = true) ∧
    (calculate_tea missingEconModel
        = (.error (.valueError missingDataMsg), missingEconModel) ∧
      ∀ msg : String, (calculate_tea witnessModel).1 ≠ .error (.valueError msg)) := by
  have hmiss : missingEconModel.economic_parameters = none ∨
      missingEconModel.dac_cost_data = none ∨
      missingEconModel.electrolysis_cost_data = none ∨
      missingEconModel.ft_synthesis_cost_data = none ∨
      missingEconModel.distribution_cost_data = none := by
    left
    norm_num [missingEconModel, initModel, set_dac_costs, set_electrolysis_costs,
      set_ft_synthesis_costs, set_distribution_costs]
  have hall : Option.isSome witnessModel.economic_parameters = true ∧
      Option.isSome witnessModel.dac_cost_data = true ∧
      Option.isSome witnessModel.electrolysis_cost_data = true ∧
      Option.isSome witnessModel.ft_synthesis_cost_data = true ∧
      Option.isSome witnessModel.distribution_cost_data = true := by
    refine ⟨?_, ?_, ?_, ?_, ?_⟩ <;>
      norm_num [witnessModel, initModel, set_economic_parameters, _calculate_crf,
        set_dac_costs, set_electrolysis_costs, set_ft_synthesis_costs, set_distribution_costs]
  exact ⟨hmiss, hall, calculate_tea_missing_group_error missingEconModel witnessModel hmiss hall⟩

/-! ### Breakeven analyzer (C9) -/

/-- C9: with a non-zero stored levelized cost `L` and reference price
`P > 0`, `calculate_breakeven_fuel_price` reproduces its four documented
formulas exactly. -/
theorem breakeven_formulas (st : ModelState) (P L : ℚ) (hL : st.results.levelized_cost = L)
    (hL0 : L ≠ 0) (hP : 0 < P) (br : BreakevenResults) (st' : ModelState)
    (h : calculate_breakeven_fuel_price st P = (.ok br, st')) :
    br.esaf_cost_usd_per_liter = L * 43.0 * 0.8 ∧
    br.price_premium = br.esaf_cost_usd_per_liter - P ∧
    br.price_premium_percent = br.price_premium / P * 100 ∧
    br.required_carbon_tax = br.price_premium / (89.0 / 1000 * 43.0) := by
  unfold calculate_breakeven_fuel_price at h
  dsimp only at h
  rw [hL, if_neg hL0] at h
  dsimp only at h
  rw [hL, if_neg hP.ne'] at h
  simp only [Prod.mk.injEq, Except.ok.injEq] at h
  obtain ⟨hbr, -⟩ := h
  subst hbr
  exact ⟨rfl, rfl, rfl, rfl⟩

/-- A model holding only a stored levelized cost of `1`, for instantiating
the breakeven theorem. -/
def breakevenWitnessModel : ModelState :=
  { initModel with results := { initResults with levelized_cost := 1 } }

theorem breakeven_formulas_witness :
    breakevenWitnessModel.results.levelized_cost = 1 ∧ (1 : ℚ) ≠ 0 ∧ (0 : ℚ) < 2 ∧
    calculate_breakeven_fuel_price breakevenWitnessModel 2
      = (.ok ⟨172 / 5, 2, 162 / 5, 1620, 32400 / 3827, 89⟩, breakevenWitnessModel) ∧
    ((⟨172 / 5, 2, 162 / 5, 1620, 32400 / 3827, 89⟩ : BreakevenResults).esaf_cost_usd_per_liter
        = 1 * 43.0 * 0.8 ∧
      (⟨172 / 5, 2, 162 / 5, 1620, 32400 / 3827, 89⟩ : BreakevenResults).price_premium
        = (⟨172 / 5, 2, 162 / 5, 1620, 32400 / 3827, 89⟩ :
            BreakevenResults).esaf_cost_usd_per_liter - 2 ∧
      (⟨172 / 5, 2, 162 / 5, 1620, 32400 / 3827, 89⟩ : BreakevenResults).price_premium_percent
        = (⟨172 / 5, 2, 162 / 5, 1620, 32400 / 3827, 89⟩ :
            BreakevenResults).price_premium / 2 * 100 ∧
      (⟨172 / 5, 2, 162 / 5, 1620, 32400 / 3827, 89⟩ : BreakevenResults).required_carbon_tax
        = (⟨172 / 5, 2, 162 / 5, 1620, 32400 / 3827, 89⟩ :
            BreakevenResults).price_premium / (89.0 / 1000 * 43.0)) := by
  have h : calculate_breakeven_fuel_price breakevenWitnessModel 2
      = (.ok ⟨172 / 5, 2, 162 / 5, 1620, 32400 / 3827, 89⟩, breakevenWitnessModel) := by
    norm_num [calculate_breakeven_fuel_price, breakevenWitnessModel, initModel, initResults]
  refine ⟨rfl, by norm_num, by norm_num, h, ?_⟩
  exact breakeven_formulas breakevenWitnessModel 2 1 rfl (by norm_num) (by norm_num) _ _ h

/-! ### Scale invariance (C10) -/

theorem calculate_tea_core_ok_guards (econ : EconomicParameters) (dac_data : DacCostData)
    (elec_data : ElectrolysisCostData) (ft_data : FtSynthesisCostData)
    (dist_data : DistributionCostData) (r : Results)
    (h : calculate_tea_core econ dac_data elec_data ft_data dist_data = .ok r) :
    econ.capacity_factor ≠ 0 ∧ 1 + ElectrolysisCostData.co_h2_ratio elec_data ≠ 0 ∧
    ft_data.catalyst_lifetime ≠ 0 ∧
    econ.plant_capacity_tpy * econ.capacity_factor * 1000 * 43.0 ≠ 0 := by
  unfold calculate_tea_core at h
  dsimp only at h
  split_ifs at h with h1 h2 h3 h4
  exact ⟨h1, h2, h3, h4⟩

/-- Every annual cost term and the annual energy output are homogeneous of
degree 1 in the plant capacity, so the levelized cost and per-capacity CAPEX
agree between any two capacities. -/
theorem calculate_tea_core_scales (econ : EconomicParameters) (c1 c2 : ℚ)
    (dac_data : DacCostData) (elec_data : ElectrolysisCostData)
    (ft_data : FtSynthesisCostData) (dist_data : DistributionCostData) (r1 r2 : Results)
    (hc1 : 0 < c1) (hc2 : 0 < c2)
    (h1 : calculate_tea_core { econ with plant_capacity_tpy := c1 } dac_data elec_data
      ft_data dist_data = .ok r1)
    (h2 : calculate_tea_core { econ with plant_capacity_tpy := c2 } dac_data elec_data
      ft_data dist_data = .ok r2) :
    r1.levelized_cost = r2.levelized_cost ∧
    r1.capex_breakdown.total / c1 = r2.capex_breakdown.total / c2 := by
  obtain ⟨hcf, hrat, hcat, hmj1⟩ := calculate_tea_core_ok_guards _ _ _ _ _ _ h1
  obtain ⟨-, -, -, hmj2⟩ := calculate_tea_core_ok_guards _ _ _ _ _ _ h2
  dsimp only at hcf hrat hcat hmj1 hmj2
  unfold calculate_tea_core at h1 h2
  dsimp only at h1 h2
  rw [if_neg hcf, if_neg hrat, if_neg hcat, if_neg hmj1] at h1
  rw [if_neg hcf, if_neg hrat, if_neg hcat, if_neg hmj2] at h2
  simp only [Except.ok.injEq] at h1 h2
  subst h1 h2
  constructor
  · dsimp only
    rw [div_eq_div_iff hmj1 hmj2]
    ring
  · dsimp only
    rw [div_eq_div_iff hc1.ne' hc2.ne']
    ring

/-- C10: with all other parameters equal, `calculate_tea` evaluated at two
positive plant capacities yields the same levelized cost and the same
CAPEX-per-unit-capacity: the model has no economy of scale in exact
arithmetic. -/
theorem calculate_tea_scale_invariant (st : ModelState) (c1 c2 : ℚ) (hc1 : 0 < c1)
    (hc2 : 0 < c2) (r1 r2 : Results) (st1' st2' : ModelState)
    (e1 : calculate_tea (setPlantCapacity st c1) = (.ok r1, st1'))
    (e2 : calculate_tea (setPlantCapacity st c2) = (.ok r2, st2')) :
    r1.levelized_cost = r2.levelized_cost ∧
    r1.capex_breakdown.total / c1 = r2.capex_breakdown.total / c2 := by
  obtain ⟨hres1, -⟩ := calculate_tea_ok_shape _ _ _ e1
  obtain ⟨hres2, -⟩ := calculate_tea_ok_shape _ _ _ e2
  obtain ⟨econA, ddA, edA, fdA, diA, hA1, hA2, hA3, hA4, hA5, hcore1⟩ :=
    calculate_tea_result_ok _ _ hres1
  obtain ⟨econB, ddB, edB, fdB, diB, hB1, hB2, hB3, hB4, hB5, hcore2⟩ :=
    calculate_tea_result_ok _ _ hres2
  simp only [setPlantCapacity] at hA1 hA2 hA3 hA4 hA5 hB1 hB2 hB3 hB4 hB5
  cases hE : st.economic_parameters with
  | none => rw [hE] at hA1; simp at hA1
  | some econ0 =>
      rw [hE] at hA1 hB1
      simp only [Option.map_some', Option.some.injEq] at hA1 hB1
      rw [hA2] at hB2
      rw [hA3] at hB3
      rw [hA4] at hB4
      rw [hA5] at hB5
      simp only [Option.some.injEq] at hB2 hB3 hB4 hB5
      subst hA1 hB1 hB2 hB3 hB4 hB5
      exact calculate_tea_core_scales econ0 c1 c2 ddA edA fdA diA r1 r2 hc1 hc2 hcore1 hcore2

theorem calculate_tea_scale_invariant_witness :
    (0 : ℚ) < 2 ∧ (0 : ℚ) < 5 ∧
    calculate_tea (setPlantCapacity witnessModel 2)
      = (.ok ⟨⟨0, 0, 0, 0, 0⟩, ⟨0, 0, 0, 0, 0⟩, ⟨0, 0, 0, 0, 0⟩, 0, 86000, 2⟩,
          { setPlantCapacity witnessModel 2 with
            results := ⟨⟨0, 0, 0, 0, 0⟩, ⟨0, 0, 0, 0, 0⟩, ⟨0, 0, 0, 0, 0⟩, 0, 86000, 2⟩ }) ∧
    calculate_tea (setPlantCapacity witnessModel 5)
      = (.ok ⟨⟨0, 0, 0, 0, 0⟩, ⟨0, 0, 0, 0, 0⟩, ⟨0, 0, 0, 0, 0⟩, 0, 215000, 5⟩,
          { setPlantCapacity witnessModel 5 with
            results := ⟨⟨0, 0, 0, 0, 0⟩, ⟨0, 0, 0, 0, 0⟩, ⟨0, 0, 0, 0, 0⟩, 0, 215000, 5⟩ }) ∧
    ((⟨⟨0, 0, 0, 0, 0⟩, ⟨0, 0, 0, 0, 0⟩, ⟨0, 0, 0, 0, 0⟩, 0, 86000, 2⟩ : Results).levelized_cost
        = (⟨⟨0, 0, 0, 0, 0⟩, ⟨0, 0, 0, 0, 0⟩, ⟨0, 0, 0, 0, 0⟩, 0, 215000, 5⟩ :
            Results).levelized_cost ∧
      (⟨⟨0, 0, 0, 0, 0⟩, ⟨0, 0, 0, 0, 0⟩, ⟨0, 0, 0, 0, 0⟩, 0, 86000, 2⟩ :
          Results).capex_breakdown.total / 2
        = (⟨⟨0, 0, 0, 0, 0⟩, ⟨0, 0, 0, 0, 0⟩, ⟨0, 0, 0, 0, 0⟩, 0, 215000, 5⟩ :
            Results).capex_breakdown.total / 5) := by
  have h2 : calculate_tea (setPlantCapacity witnessModel 2)
      = (.ok ⟨⟨0, 0, 0, 0, 0⟩, ⟨0, 0, 0, 0, 0⟩, ⟨0, 0, 0, 0, 0⟩, 0, 86000, 2⟩,
          { setPlantCapacity witnessModel 2 with
            results := ⟨⟨0, 0, 0, 0, 0⟩, ⟨0, 0, 0, 0, 0⟩, ⟨0, 0, 0, 0, 0⟩, 0, 86000, 2⟩ }) := by
    norm_num [calculate_tea, calculate_tea_result, calculate_tea_core, setPlantCapacity,
      witnessModel, initModel, initResults, set_economic_parameters, _calculate_crf,
      set_dac_costs, set_electrolysis_costs, set_ft_synthesis_costs, set_distribution_costs]
  have h5 : calculate_tea (setPlantCapacity witnessModel 5)
      = (.ok ⟨⟨0, 0, 0, 0, 0⟩, ⟨0, 0, 0, 0, 0⟩, ⟨0, 0, 0, 0, 0⟩, 0, 215000, 5⟩,
          { setPlantCapacity witnessModel 5 with
            results := ⟨⟨0, 0, 0, 0, 0⟩, ⟨0, 0, 0, 0, 0⟩, ⟨0, 0, 0, 0, 0⟩, 0, 215000, 5⟩ }) := by
    norm_num [calculate_tea, calculate_tea_result, calculate_tea_core, setPlantCapacity,
      witnessModel, initModel, initResults, set_economic_parameters, _calculate_crf,
      set_dac_costs, set_electrolysis_costs, set_ft_synthesis_costs, set_distribution_costs]
  exact ⟨by norm_num, by norm_num, h2, h5,
    calculate_tea_scale_invariant witnessModel 2 5 (by norm_num) (by norm_num) _ _ _ _ h2 h5⟩

/-! ### Monotonicity of the default electricity-price sweep (C6) -/

set_option maxRecDepth 8000 in
set_option maxHeartbeats 1600000 in
/-- C6: on the default model, sweeping the default electricity-price list
`[0.02, …, 0.20]` succeeds and produces a levelized-cost sequence in which
every adjacent pair is non-decreasing. -/
theorem default_electricity_sweep_monotone :
    ∃ (rows : List ElectricityDfRow) (st' : ModelState),
      analyze_electricity_price_sensitivity defaultModel defaultElectricityPrices
        = (.ok rows, st') ∧
      List.Chain' (fun a b => a.levelized_cost ≤ b.levelized_cost) rows := by
  rcases h : analyze_electricity_price_sensitivity defaultModel defaultElectricityPrices
    with ⟨out, stf⟩
  rcases out with e | rows
  · norm_num [analyze_electricity_price_sensitivity, electricitySweepLoop, setElectricityPrices,
      calculate_tea, calculate_tea_result, calculate_tea_core, addElectricityContributions,
      defaultModel, defaultElectricityPrices, initModel, initResults, set_economic_parameters,
      _calculate_crf, set_dac_costs, set_electrolysis_costs, set_ft_synthesis_costs,
      set_distribution_costs, defaultDacCostData, defaultElectrolysisCostData,
      defaultFtSynthesisCostData, defaultDistributionCostData, Prod.ext_iff] at h
    exact Except.noConfusion h.1
  · refine ⟨rows, stf, rfl, ?_⟩
    norm_num [analyze_electricity_price_sensitivity, electricitySweepLoop, setElectricityPrices,
      calculate_tea, calculate_tea_result, calculate_tea_core, addElectricityContributions,
      defaultModel, defaultElectricityPrices, initModel, initResults, set_economic_parameters,
      _calculate_crf, set_dac_costs, set_electrolysis_costs, set_ft_synthesis_costs,
      set_distribution_costs, defaultDacCostData, defaultElectrolysisCostData,
      defaultFtSynthesisCostData, defaultDistributionCostData, Prod.ext_iff] at h
    obtain ⟨h1, -⟩ := h
    subst h1
    norm_num [List.chain'_cons, List.chain'_singleton]

end ESAFTEA
